import Mathlib

/-!
Shallow embedding of `src/utils.py` (repository tripleten-s8): a utility
module with a PostgreSQL query executor (`execute_query`), a table
materializer (`create_table_from_df`), two file readers (`read_sql_file`,
`read_json_file`) and a tabular cleaning routine (`limpieza_general`).

Python/pandas runtime behaviour that the module calls into (psycopg2,
`open`, `json.load`, pandas string methods, `pd.to_datetime`) is modelled
explicitly: fallible library primitives either take their outcome as a
parameter (file contents, JSON parse) or are driven by a fault oracle that
decides, per primitive database call, whether that call raises.  A raised
Python exception is an `Except.error`; a `try/except` boundary in the
source becomes a `match` that turns the error into the absent result plus a
printed diagnostic, exactly where the source catches.
-/

namespace Utils

/-- Runtime cell value of a pandas column, as seen by this module.
`vNull` stands for a missing value (`None`, `NaN` or `NaT`); `vFloat` and
`vDate` keep an opaque integer payload since the module never computes with
float or timestamp contents. -/
inductive Value where
  | vNull : Value
  | vInt (n : Int) : Value
  | vFloat (n : Int) : Value
  | vStr (s : String) : Value
  | vDate (t : Int) : Value
  deriving DecidableEq, Repr

/-- Whether pandas `isnull` counts this cell as missing. -/
def Value.isnullB : Value → Bool
  | Value.vNull => true
  | _ => false

/-- Whether the cell is a Python `str`. -/
def Value.isStrB : Value → Bool
  | Value.vStr _ => true
  | _ => false

/-- Whether the cell is a Python `int`. -/
def Value.isIntB : Value → Bool
  | Value.vInt _ => true
  | _ => false

/-- Whether the cell is a Python `float`. -/
def Value.isFloatB : Value → Bool
  | Value.vFloat _ => true
  | _ => false

/-- Whether the cell is a timestamp. -/
def Value.isDateB : Value → Bool
  | Value.vDate _ => true
  | _ => false

/-- The pandas column dtypes that can appear in this module. -/
inductive Dtype where
  | int64 : Dtype
  | float64 : Dtype
  | object : Dtype
  | datetime64 : Dtype
  | boolean : Dtype
  deriving DecidableEq, Repr

/-- The string `str(dtype)` that Python produces for the dtype
(`create_table_from_df` classifies columns by substring search on it). -/
def Dtype.pyName : Dtype → String
  | Dtype.int64 => "int64"
  | Dtype.float64 => "float64"
  | Dtype.object => "object"
  | Dtype.datetime64 => "datetime64[ns]"
  | Dtype.boolean => "bool"

/-- One named, typed column of a DataFrame. -/
structure Col where
  name : String
  dtype : Dtype
  cells : List Value
  deriving DecidableEq, Repr

/-- A pandas DataFrame: an ordered list of named, typed columns. -/
structure Df where
  cols : List Col
  deriving DecidableEq, Repr

/-- Default column for positional `getD` access. -/
def colDefault : Col := { name := "", dtype := Dtype.object, cells := [] }

/-- The empty DataFrame (default heap cell). -/
def dfEmpty : Df := { cols := [] }

/-- The column names of a DataFrame, in order. -/
def Df.names (df : Df) : List String := df.cols.map (fun c => c.name)

/-- The rows of a DataFrame, in order, as `df.iterrows()` yields them: the
transpose of the column-major cell lists. -/
def rowsOf (df : Df) : List (List Value) := (df.cols.map (fun c => c.cells)).transpose

/-- Substring test on character lists: Python `needle in haystack`. -/
def containsSub (needle : List Char) : List Char → Bool
  | [] => needle.isEmpty
  | c :: rest => needle.isPrefixOf (c :: rest) || containsSub needle rest

/-- `utils.py` lines 62-68: the SQL type for one column, chosen by substring
search on `str(dtype)`: INTEGER if it contains "int", else FLOAT if it
contains "float", else TEXT. -/
def column_type_of (d : Dtype) : String :=
  if containsSub "int".data (Dtype.pyName d).data then "INTEGER"
  else if containsSub "float".data (Dtype.pyName d).data then "FLOAT"
  else "TEXT"

/-- `utils.py` line 69: the schema entry for one column, the column name
wrapped in double quotes followed by its SQL type. -/
def columnDefs (df : Df) : List String :=
  df.cols.map (fun c => "\"" ++ c.name ++ "\" " ++ column_type_of c.dtype)

/-- `utils.py` lines 71-74: the CREATE TABLE IF NOT EXISTS statement. -/
def create_table_query (t : String) (df : Df) : String :=
  "CREATE TABLE IF NOT EXISTS \"" ++ t ++ "\" (" ++ String.intercalate ", " (columnDefs df) ++ ");"

/-- `utils.py` line 82: the comma-joined parameter placeholders for one row. -/
def placeholders (n : Nat) : String := String.intercalate ", " (List.replicate n "%s")

/-- `utils.py` line 83: the parameterized INSERT statement for a row of
`n` values; the values themselves travel as bound parameters, not in the
SQL text. -/
def insert_query (t : String) (n : Nat) : String :=
  "INSERT INTO \"" ++ t ++ "\" VALUES (" ++ placeholders n ++ ")"

/-- One primitive database-driver call, as recorded in a call trace.
`exec` carries the SQL text passed to `cursor.execute`; `execP` carries the
SQL text and the separately bound parameter tuple. -/
inductive DbEvent where
  | connect : DbEvent
  | cursor : DbEvent
  | exec (sql : String) : DbEvent
  | execP (sql : String) (params : List Value) : DbEvent
  | describe : DbEvent
  | fetchAll : DbEvent
  | commit : DbEvent
  | closeCursor : DbEvent
  | closeConn : DbEvent
  deriving DecidableEq, Repr

/-- Fault oracle: given the primitive calls already performed, decides
whether the next primitive call raises. -/
def Oracle : Type := List DbEvent → Bool

/-- The oracle of a fault-free run. -/
def noFault : Oracle := fun _ => false

/-- The Python exception message raised when a primitive fails. -/
def eventErr : DbEvent → String := fun _ => "psycopg2.OperationalError"

/-- A database-driver computation: from the trace so far, an outcome (value
or raised exception) and the extended trace. -/
def MRes (α : Type) : Type := List DbEvent → Except String α × List DbEvent

/-- Sequencing of driver computations: a raised exception short-circuits. -/
def mbind {α β : Type} (x : MRes α) (f : α → MRes β) : MRes β := fun tr =>
  match x tr with
  | (Except.ok a, tr2) => f a tr2
  | (Except.error e, tr2) => (Except.error e, tr2)

/-- A pure value as a driver computation. -/
def mpure {α : Type} (a : α) : MRes α := fun tr => (Except.ok a, tr)

/-- One primitive driver call: the oracle decides whether it raises; on
success the event is appended to the trace. -/
def mstep (oracle : Oracle) (e : DbEvent) : MRes Unit := fun tr =>
  if oracle tr then (Except.error (eventErr e), tr) else (Except.ok (), tr ++ [e])

/-- A fixed sequence of primitive driver calls, performed in order. -/
def runSteps (oracle : Oracle) : List DbEvent → MRes Unit
  | [] => mpure ()
  | e :: rest => mbind (mstep oracle e) (fun _ => runSteps oracle rest)

/-- What a query returns from the database: the column names from the
cursor description and the fetched rows. -/
def QueryResult : Type := List String × List (List Value)

/-- Dtype pandas infers for a column built by `pd.DataFrame` from driver
rows: int64 when every cell is an int, float64 when every cell is an int or
float (with at least one cell), else object. -/
def inferDtype (cells : List Value) : Dtype :=
  if !cells.isEmpty && cells.all Value.isIntB then Dtype.int64
  else if !cells.isEmpty && cells.all (fun v => Value.isIntB v || Value.isFloatB v) then Dtype.float64
  else Dtype.object

/-- `utils.py` line 30: `pd.DataFrame(data, columns=columns)`. -/
def mkDf (names : List String) (rows : List (List Value)) : Df :=
  { cols := (List.range names.length).map (fun i =>
      let cells := rows.map (fun r => r.getD i Value.vNull)
      { name := names.getD i "", dtype := inferDtype cells, cells := cells }) }

/-- The primitive calls `execute_query` performs, in source order
(lines 19-34): connect, cursor, execute the query, read the description,
fetch all rows, close the cursor, close the connection. -/
def execute_query_events (q : String) : List DbEvent :=
  [DbEvent.connect, DbEvent.cursor, DbEvent.exec q, DbEvent.describe,
   DbEvent.fetchAll, DbEvent.closeCursor, DbEvent.closeConn]

/-- The body of `execute_query` (the `try` block, lines 17-36): the
primitive calls in order, then the DataFrame built from the query result.
The pure DataFrame construction cannot raise in this model. -/
def execute_query_body (q : String) (res : QueryResult) (oracle : Oracle) : MRes Df :=
  mbind (runSteps oracle (execute_query_events q)) (fun _ => mpure (mkDf res.1 res.2))

/-- `utils.py` lines 6-39, `execute_query`: runs the body and catches any
failure at the boundary (lines 37-39), printing a diagnostic and returning
`None`.  Result: the returned value, the driver-call trace, the printed
diagnostics. -/
def execute_query (q : String) (res : QueryResult) (oracle : Oracle) :
    Option Df × List DbEvent × List String :=
  match execute_query_body q res oracle [] with
  | (Except.ok df, tr) => (some df, tr, [])
  | (Except.error e, tr) => (none, tr, ["Error ejecutando la consulta: " ++ e])

/-- The primitive calls `create_table_from_df` performs, in source order
(lines 57-92): connect, cursor, execute the conditional CREATE, commit, one
parameterized INSERT per row of `df.iterrows()`, commit, close the cursor,
close the connection. -/
def create_events (df : Df) (t : String) : List DbEvent :=
  [DbEvent.connect, DbEvent.cursor, DbEvent.exec (create_table_query t df), DbEvent.commit]
    ++ (rowsOf df).map (fun r => DbEvent.execP (insert_query t r.length) r)
    ++ [DbEvent.commit, DbEvent.closeCursor, DbEvent.closeConn]

/-- The body of `create_table_from_df` (the `try` block, lines 55-93). -/
def create_table_from_df_body (df : Df) (t : String) (oracle : Oracle) : MRes Unit :=
  mbind (runSteps oracle (create_events df t)) (fun _ => mpure ())

/-- `utils.py` lines 43-95, `create_table_from_df`: runs the body and
catches any failure at the boundary (lines 94-95), printing a diagnostic;
the function itself always returns `None` to the caller, so the payload is
`some ()` on success only to record which path was taken. -/
def create_table_from_df (df : Df) (t : String) (oracle : Oracle) :
    Option Unit × List DbEvent × List String :=
  match create_table_from_df_body df t oracle [] with
  | (Except.ok _, tr) => (some (), tr, ["Tabla '" ++ t ++ "' creada exitosamente en PostgreSQL."])
  | (Except.error e, tr) => (none, tr, ["Error al crear la tabla: " ++ e])

/-- `utils.py` lines 98-114, `read_sql_file`: the outcome of
`open(...).read()` is the parameter (a raised exception or the file text);
the boundary catch prints a diagnostic and returns `None`. -/
def read_sql_file (fileRes : Except String String) : Option String × List String :=
  match fileRes with
  | Except.ok s => (some s, [])
  | Except.error e => (none, ["Error al leer el archivo: " ++ e])

/-- `utils.py` lines 117-133, `read_json_file`: the outcome of reading is
the parameter and `json.load` is the parameter `jload` (a model of the
library parser over an arbitrary result type); the boundary catch prints a
diagnostic and returns `None`. -/
def read_json_file {α : Type} (fileRes : Except String String)
    (jload : String → Except String α) : Option α × List String :=
  match fileRes with
  | Except.error e => (none, ["Error al leer el archivo JSON: " ++ e])
  | Except.ok s =>
    match jload s with
    | Except.ok v => (some v, [])
    | Except.error e => (none, ["Error al leer el archivo JSON: " ++ e])

/-! Semantics of the generated SQL: enough of PostgreSQL to settle the
append-vs-replace question.  Tables map a name to their rows; the two
statement shapes this module generates are recognised by their literal
prefixes and the quoted table name is read back out. -/

/-- The database: each table name with its current rows, in creation order. -/
abbrev DbState : Type := List (String × List (List Value))

/-- Strip an exact literal character prefix. -/
def dropLit : List Char → List Char → Option (List Char)
  | [], s => some s
  | _ :: _, [] => none
  | p :: ps, c :: cs => if c = p then dropLit ps cs else none

/-- The characters before the next double quote: a quoted SQL identifier. -/
def takeName : List Char → List Char
  | [] => []
  | c :: cs => if c = '"' then [] else c :: takeName cs

/-- Whether a table name is free of double quotes, so that it reads back
unambiguously from the generated statement. -/
def noQuote (t : String) : Bool := t.data.all (fun c => !(c == '"'))

/-- The table name of a conditional CREATE statement, when the text has the
shape this module generates. -/
def parseCreate (s : String) : Option String :=
  (dropLit "CREATE TABLE IF NOT EXISTS \"".data s.data).map (fun r => String.mk (takeName r))

/-- The table name of an INSERT statement, when the text has the shape this
module generates. -/
def parseInsertTbl (s : String) : Option String :=
  (dropLit "INSERT INTO \"".data s.data).map (fun r => String.mk (takeName r))

/-- Look a table up by name. -/
def dbLookup (db : DbState) (t : String) : Option (List (List Value)) :=
  match db with
  | [] => none
  | (n, rs) :: rest => if n = t then some rs else dbLookup rest t

/-- CREATE TABLE IF NOT EXISTS: a new empty table only when the name is
absent; an existing table is left untouched. -/
def dbCreateIfAbsent (db : DbState) (t : String) : DbState :=
  match dbLookup db t with
  | some _ => db
  | none => db ++ [(t, [])]

/-- INSERT INTO: append the bound row to the named table. -/
def dbInsert : DbState → String → List Value → DbState
  | [], _, _ => []
  | (n, rs) :: rest, t, r =>
    (if n = t then (n, rs ++ [r]) else (n, rs)) :: dbInsert rest t r

/-- Effect of one driver call on the database.  Only the two statement
shapes this module generates change it; connection handling and commits of
this autocommit-per-call model do not. -/
def applyEvent (db : DbState) : DbEvent → DbState
  | DbEvent.exec s =>
    match parseCreate s with
    | some t => dbCreateIfAbsent db t
    | none => db
  | DbEvent.execP s r =>
    match parseInsertTbl s with
    | some t => dbInsert db t r
    | none => db
  | _ => db

/-- Effect of a whole driver-call trace on the database. -/
def runTrace (db : DbState) (tr : List DbEvent) : DbState := tr.foldl applyEvent db

/-- Which trace events carry a SQL statement or a transaction commit. -/
def isSqlEvent : DbEvent → Bool
  | DbEvent.exec _ => true
  | DbEvent.execP _ _ => true
  | DbEvent.commit => true
  | _ => false

/-- The SQL-relevant subsequence of a driver-call trace. -/
def sqlEvents (tr : List DbEvent) : List DbEvent := tr.filter isSqlEvent

/-! The tabular cleaner `limpieza_general` (lines 136-181). -/

/-- The whitespace characters Python `str.strip` removes (ASCII range). -/
def isSpaceChar (c : Char) : Bool :=
  c = ' ' || c = '\t' || c = '\n' || c = '\r' || c = '\x0b' || c = '\x0c'

/-- Strip `isSpaceChar` characters from both ends of a character list. -/
def stripChars (l : List Char) : List Char :=
  ((l.dropWhile isSpaceChar).reverse.dropWhile isSpaceChar).reverse

/-- Python `str.strip()` on a string. -/
def pyStrip (s : String) : String := String.mk (stripChars s.data)

/-- The ASCII uppercase letters. -/
def upperList : List Char :=
  ['A', 'B', 'C', 'D', 'E', 'F', 'G', 'H', 'I', 'J', 'K', 'L', 'M',
   'N', 'O', 'P', 'Q', 'R', 'S', 'T', 'U', 'V', 'W', 'X', 'Y', 'Z']

/-- Python `str.lower()` on one character (restricted to ASCII letters;
the repository only ever lowercases column labels). -/
def lowerChar (c : Char) : Char :=
  if c = 'A' then 'a' else if c = 'B' then 'b' else if c = 'C' then 'c'
  else if c = 'D' then 'd' else if c = 'E' then 'e' else if c = 'F' then 'f'
  else if c = 'G' then 'g' else if c = 'H' then 'h' else if c = 'I' then 'i'
  else if c = 'J' then 'j' else if c = 'K' then 'k' else if c = 'L' then 'l'
  else if c = 'M' then 'm' else if c = 'N' then 'n' else if c = 'O' then 'o'
  else if c = 'P' then 'p' else if c = 'Q' then 'q' else if c = 'R' then 'r'
  else if c = 'S' then 's' else if c = 'T' then 't' else if c = 'U' then 'u'
  else if c = 'V' then 'v' else if c = 'W' then 'w' else if c = 'X' then 'x'
  else if c = 'Y' then 'y' else if c = 'Z' then 'z' else c

/-- A regex word character `\w`: alphanumeric or underscore (ASCII model
of the Python default). -/
def isWordChar (c : Char) : Bool := c.isAlphanum || c = '_'

/-- Replace spaces by underscores (`.str.replace(" ", "_")`). -/
def replSpace (l : List Char) : List Char := l.map (fun c => if c = ' ' then '_' else c)

/-- Replace every non-word character by an underscore
(`.str.replace(r"[^\w]", "_", regex=True)`). -/
def replNonWord (l : List Char) : List Char := l.map (fun c => if isWordChar c then c else '_')

/-- `utils.py` lines 151-156: column-name normalization, in source order:
strip, lower, spaces to underscores, non-word characters to underscores. -/
def normalizeName (s : String) : String :=
  String.mk (replNonWord (replSpace ((stripChars s.data).map lowerChar)))

/-- `utils.py` lines 151-156 applied to a whole DataFrame: every column
label normalized, everything else untouched. -/
def renamePass (df : Df) : Df :=
  { cols := df.cols.map (fun c => { name := normalizeName c.name, dtype := c.dtype, cells := c.cells }) }

/-- `mapM` over `Except` with the evaluation order of a Python loop,
unfolded for proof convenience. -/
def mapExcept {α β : Type} (f : α → Except String β) : List α → Except String (List β)
  | [] => Except.ok []
  | a :: rest =>
    match f a with
    | Except.error e => Except.error e
    | Except.ok b =>
      match mapExcept f rest with
      | Except.error e => Except.error e
      | Except.ok bs => Except.ok (b :: bs)

/-- Models the guard of the pandas `.str` accessor
(`StringMethods._validate`): on an object column it raises AttributeError
unless the inferred type of the non-null cells is string-like, empty, or a
mixture that is not purely numeric (pandas allows inferred "string",
"empty", "mixed" and "mixed-integer"; purely numeric or purely datetime
object columns are refused). -/
def strOk (cells : List Value) : Bool :=
  let nn := cells.filter (fun v => !(Value.isnullB v))
  nn.isEmpty || nn.any Value.isStrB || (nn.any Value.isDateB && !(nn.all Value.isDateB))

/-- Element behaviour of `.str.strip()`: a string is stripped, a missing
value stays missing, and any non-string cell becomes NaN. -/
def stripCell : Value → Value
  | Value.vStr s => Value.vStr (pyStrip s)
  | Value.vNull => Value.vNull
  | _ => Value.vNull

/-- `series.str.strip()`: the accessor guard, then element-wise strip. -/
def stripSeries (cells : List Value) : Except String (List Value) :=
  if strOk cells then Except.ok (cells.map stripCell)
  else Except.error "Can only use .str accessor with string values"

/-- `utils.py` lines 159-160 for one column: object-dtype columns are run
through `.str.strip()` (which can raise); others are untouched. -/
def trimCol (c : Col) : Except String Col :=
  if c.dtype = Dtype.object then
    match stripSeries c.cells with
    | Except.ok out => Except.ok { name := c.name, dtype := c.dtype, cells := out }
    | Except.error e => Except.error e
  else Except.ok c

/-- `utils.py` lines 159-160: the string-trimming loop over the object
columns.  There is no `try` around it, so a raise propagates. -/
def trimPass (df : Df) : Except String Df :=
  match mapExcept trimCol df.cols with
  | Except.ok cs => Except.ok { cols := cs }
  | Except.error e => Except.error e

/-- Models `pd.to_datetime` on a date string, restricted to the ISO
`YYYY-MM-DD` shape: four digits, dash, two digits (01-12), dash, two digits
(01-31). -/
def parseIsoDate (s : String) : Option Int :=
  match s.data with
  | [y1, y2, y3, y4, '-', m1, m2, '-', d1, d2] =>
    if y1.isDigit && y2.isDigit && y3.isDigit && y4.isDigit
        && m1.isDigit && m2.isDigit && d1.isDigit && d2.isDigit then
      let y := ((y1.toNat - 48) * 1000 + (y2.toNat - 48) * 100 + (y3.toNat - 48) * 10 + (y4.toNat - 48))
      let m := (m1.toNat - 48) * 10 + (m2.toNat - 48)
      let d := (d1.toNat - 48) * 10 + (d2.toNat - 48)
      if 1 ≤ m && m ≤ 12 && 1 ≤ d && d ≤ 31 then some (Int.ofNat (y * 10000 + m * 100 + d))
      else none
    else none
  | _ => none

/-- Models `pd.to_datetime(value, errors="raise")` on one cell: missing
values become NaT without raising, parsable strings become timestamps, an
unparsable string raises, and numbers are read as epoch offsets (pandas
accepts them without raising). -/
def to_datetime_cell : Value → Except String Value
  | Value.vNull => Except.ok Value.vNull
  | Value.vStr s =>
    match parseIsoDate s with
    | some n => Except.ok (Value.vDate n)
    | none => Except.error ("Unknown datetime string format: " ++ s)
  | Value.vInt n => Except.ok (Value.vDate n)
  | Value.vFloat n => Except.ok (Value.vDate n)
  | Value.vDate n => Except.ok (Value.vDate n)

/-- `pd.to_datetime(series, errors="raise")`: every cell must convert. -/
def to_datetime (cells : List Value) : Except String (List Value) :=
  mapExcept to_datetime_cell cells

/-- The diagnostic printed when a column converts to dates (line 167). -/
def dateMsg (n : String) : String := "📅 Columna '" ++ n ++ "' convertida a fecha."

/-- `utils.py` lines 163-169 for one column: an object column is converted
when every cell parses (with a diagnostic); the bare `except: continue`
leaves it untouched, silently, when any cell fails. -/
def dateInferCol (c : Col) : Col × List String :=
  if c.dtype = Dtype.object then
    match to_datetime c.cells with
    | Except.ok parsed =>
      ({ name := c.name, dtype := Dtype.datetime64, cells := parsed }, [dateMsg c.name])
    | Except.error _ => (c, [])
  else (c, [])

/-- `utils.py` lines 163-169: the date-inference loop over all columns. -/
def dateInferPass (df : Df) : Df × List String :=
  ({ cols := df.cols.map (fun c => (dateInferCol c).1) },
   (df.cols.map (fun c => (dateInferCol c).2)).flatten)

/-- Keep the first occurrence of each row (pandas `drop_duplicates`,
default `keep="first"`). -/
def dedupFirstAux (seen : List (List Value)) : List (List Value) → List (List Value)
  | [] => []
  | r :: rest =>
    if r ∈ seen then dedupFirstAux seen rest else r :: dedupFirstAux (r :: seen) rest

/-- `df.drop_duplicates()` on the row list. -/
def dedupFirst (rows : List (List Value)) : List (List Value) := dedupFirstAux [] rows

/-- Rebuild the column-major DataFrame from the kept rows, preserving each
column name and dtype; `i` is the position of the first column. -/
def rebuildCols (kept : List (List Value)) : List Col → Nat → List Col
  | [], _ => []
  | c :: rest, i =>
    { name := c.name, dtype := c.dtype, cells := kept.map (fun r => r.getD i Value.vNull) }
      :: rebuildCols kept rest (i + 1)

/-- `utils.py` line 172: `df = df.drop_duplicates()`. -/
def drop_duplicates (df : Df) : Df :=
  { cols := rebuildCols (dedupFirst (rowsOf df)) df.cols 0 }

/-- How many cells of the column the null report counts (`df.isnull().sum()`). -/
def nullCount (c : Col) : Nat := c.cells.countP Value.isnullB

/-- `utils.py` lines 175-178: the dtype report and the null report. -/
def reportMsgs (df : Df) : List String :=
  ["\n📊 Tipos de datos:"]
    ++ df.cols.map (fun c => c.name ++ "    " ++ Dtype.pyName c.dtype)
    ++ ["\n🔍 Valores nulos por columna:"]
    ++ df.cols.map (fun c => c.name ++ "    " ++ toString (nullCount c))

/-- `df.copy()` (line 148): a deep, independent copy — every column is
rebuilt. -/
def copyDf (df : Df) : Df :=
  { cols := df.cols.map (fun c => { name := c.name, dtype := c.dtype, cells := c.cells }) }

/-- `utils.py` lines 136-181, `limpieza_general`: copy, normalize labels,
trim object columns (no boundary catch: a raise propagates), infer dates
(per-column catch), drop duplicate rows, report.  Returns the cleaned
DataFrame and the printed diagnostics, or the propagated exception. -/
def limpieza_general (df0 : Df) : Except String (Df × List String) :=
  let df := copyDf df0
  let renamed := renamePass df
  match trimPass renamed with
  | Except.error e => Except.error e
  | Except.ok trimmed =>
    let dated := (dateInferPass trimmed).1
    let dmsgs := (dateInferPass trimmed).2
    let df_limpio := drop_duplicates dated
    Except.ok (df_limpio, dmsgs ++ reportMsgs df_limpio ++ ["\n✅ Limpieza general completada."])

/-- `limpieza_general` against an explicit heap of DataFrame objects: the
caller's object lives at address `a`; line 148 allocates an independent
copy and rebinds the local name `df` to it, so every later in-place update
(label assignment, column assignment) targets the copy, and line 172
allocates the deduplicated result.  Returns the heap after the call and,
on success, the address of the returned object with the diagnostics. -/
def limpieza_general_heap (h : List Df) (a : Nat) :
    List Df × Except String (Nat × List String) :=
  let h1 := h ++ [copyDf (h.getD a dfEmpty)]
  let w := h.length
  let h2 := h1.set w (renamePass (h1.getD w dfEmpty))
  match trimPass (h2.getD w dfEmpty) with
  | Except.error e => (h2, Except.error e)
  | Except.ok trimmed =>
    let h3 := h2.set w trimmed
    let dated := (dateInferPass (h3.getD w dfEmpty)).1
    let dmsgs := (dateInferPass (h3.getD w dfEmpty)).2
    let h4 := h3.set w dated
    let h5 := h4 ++ [drop_duplicates (h4.getD w dfEmpty)]
    let w2 := h4.length
    (h5, Except.ok (w2, dmsgs ++ reportMsgs (h5.getD w2 dfEmpty) ++ ["\n✅ Limpieza general completada."]))

/-! Concrete inputs used in counterexamples and witnesses. -/

/-- An object-dtype column holding only Python ints: the pandas `.str`
accessor refuses it, so the cleaner raises. -/
def dfIntObj : Df := ⟨[⟨"codigo", Dtype.object, [Value.vInt 1, Value.vInt 2]⟩]⟩

/-- A one-column, one-row query result. -/
def qres0 : QueryResult := (["a"], [[Value.vInt 1]])

/-- Fault oracle that makes the third primitive call raise: for both
database functions that is the first `cursor.execute`, after the
connection and the cursor were already obtained. -/
def failAtExec : Oracle := fun tr => tr.length == 2

/-- One column of each dtype this model knows. -/
def dfTypes : Df :=
  ⟨[⟨"a", Dtype.int64, [Value.vInt 1]⟩, ⟨"b", Dtype.float64, [Value.vFloat 2]⟩,
    ⟨"c", Dtype.object, [Value.vStr "x"]⟩, ⟨"d", Dtype.datetime64, [Value.vDate 3]⟩,
    ⟨"e", Dtype.boolean, [Value.vInt 0]⟩]⟩

/-- First materializer input: one int column, one row. -/
def df1w : Df := ⟨[⟨"x", Dtype.int64, [Value.vInt 1]⟩]⟩

/-- Second materializer input with the same schema, another row. -/
def df2w : Df := ⟨[⟨"x", Dtype.int64, [Value.vInt 2]⟩]⟩

/-- Two distinct column names that normalization collapses. -/
def dfC8 : Df := ⟨[⟨"a b", Dtype.int64, [Value.vInt 1]⟩, ⟨"a_b", Dtype.int64, [Value.vInt 2]⟩]⟩

/-- Two columns whose normalized names stay distinct. -/
def dfW8 : Df := ⟨[⟨"A", Dtype.int64, [Value.vInt 1]⟩, ⟨"B", Dtype.int64, [Value.vInt 2]⟩]⟩

/-- One fully parsable date column and one column with an unparsable cell. -/
def dfDates : Df :=
  ⟨[⟨"fecha", Dtype.object, [Value.vStr "2024-01-01", Value.vStr "2024-02-01"]⟩,
    ⟨"nota", Dtype.object, [Value.vStr "2024-01-01", Value.vStr "not-a-date"]⟩]⟩

/-- A mixed text column: a string, an int and a missing value. -/
def dfMix : Df := ⟨[⟨"mixto", Dtype.object, [Value.vStr " a ", Value.vInt 7, Value.vNull]⟩]⟩

/-- What the trimming pass produces from `dfMix`. -/
def dfMixTrimmed : Df :=
  ⟨[⟨"mixto", Dtype.object, [Value.vStr "a", Value.vNull, Value.vNull]⟩]⟩

/-! Basic lemmas about the driver-call monad. -/

lemma mstep_noFault (e : DbEvent) (tr : List DbEvent) :
    mstep noFault e tr = (Except.ok (), tr ++ [e]) := rfl

lemma runSteps_noFault (evs tr : List DbEvent) :
    runSteps noFault evs tr = (Except.ok (), tr ++ evs) := by
  induction evs generalizing tr with
  | nil => simp [runSteps, mpure]
  | cons e rest ih => simp [runSteps, mbind, mstep_noFault, ih]

/-- A failed run performed a proper prefix of the planned calls. -/
lemma runSteps_error (oracle : Oracle) (evs : List DbEvent) :
    ∀ (tr0 : List DbEvent) (e : String) (tr : List DbEvent),
      runSteps oracle evs tr0 = (Except.error e, tr) →
      ∃ p rest, evs = p ++ rest ∧ rest ≠ [] ∧ tr = tr0 ++ p := by
  induction evs with
  | nil => intro tr0 e tr h; simp [runSteps, mpure] at h
  | cons ev evs ih =>
    intro tr0 e tr h
    by_cases ho : oracle tr0
    · refine ⟨[], ev :: evs, by simp, by simp, ?_⟩
      simp only [runSteps, mbind, mstep, if_pos ho, Prod.mk.injEq] at h
      simpa using h.2.symm
    · simp only [runSteps, mbind, mstep, if_neg ho] at h
      obtain ⟨p, rest, hevs, hne, htr⟩ := ih (tr0 ++ [ev]) e tr h
      exact ⟨ev :: p, rest, by simp [hevs], hne, by simp [htr]⟩

lemma execute_query_noFault (q : String) (res : QueryResult) :
    execute_query q res noFault = (some (mkDf res.1 res.2), execute_query_events q, []) := by
  simp [execute_query, execute_query_body, mbind, mpure, runSteps_noFault]

lemma create_table_noFault (df : Df) (t : String) :
    create_table_from_df df t noFault
      = (some (), create_events df t,
         ["Tabla '" ++ t ++ "' creada exitosamente en PostgreSQL."]) := by
  simp [create_table_from_df, create_table_from_df_body, mbind, mpure, runSteps_noFault]

/-- In a split of a list whose only occurrence of `x` is its last element,
`x` does not lie in the proper-prefix part. -/
lemma not_mem_proper_prefix (x : DbEvent) (evs p rest : List DbEvent)
    (he : evs = p ++ rest) (hrest : rest ≠ [])
    (hcount : evs.count x ≤ 1) (hlast : evs.getLast? = some x) : x ∉ p := by
  intro hp
  have hl : rest.getLast? = some x := by
    rw [he, List.getLast?_append_of_ne_nil _ hrest] at hlast; exact hlast
  have hxrest : x ∈ rest := List.mem_of_getLast?_eq_some hl
  have h1 : 0 < p.count x := List.count_pos_iff.mpr hp
  have h2 : 0 < rest.count x := List.count_pos_iff.mpr hxrest
  rw [he, List.count_append] at hcount
  omega

/-- A caught body failure: the underlying step sequence failed with the
same trace. -/
lemma catchRun_error {α : Type} (oracle : Oracle) (evs : List DbEvent) (v : α)
    (e : String) (tr : List DbEvent)
    (h : mbind (runSteps oracle evs) (fun _ => mpure v) [] = (Except.error e, tr)) :
    runSteps oracle evs [] = (Except.error e, tr) := by
  rcases hr : runSteps oracle evs [] with ⟨r, tr2⟩
  cases r with
  | ok u => rw [mbind, hr] at h; simp [mpure] at h
  | error e2 =>
    rw [mbind, hr] at h
    simp only [Prod.mk.injEq, Except.error.injEq] at h
    rw [h.1, h.2]

/-- A failed body whose planned calls end in their only `closeConn` never
performed `closeConn`. -/
lemma catchRun_error_no_close {α : Type} (oracle : Oracle) (evs : List DbEvent) (v : α)
    (e : String) (tr : List DbEvent)
    (h : mbind (runSteps oracle evs) (fun _ => mpure v) [] = (Except.error e, tr))
    (hcount : evs.count DbEvent.closeConn ≤ 1)
    (hlast : evs.getLast? = some DbEvent.closeConn) : DbEvent.closeConn ∉ tr := by
  obtain ⟨p, rest, hevs, hne, htr⟩ :=
    runSteps_error oracle evs [] e tr (catchRun_error oracle evs v e tr h)
  simp only [List.nil_append] at htr
  rw [htr]
  exact not_mem_proper_prefix _ evs p rest hevs hne hcount hlast

lemma execute_query_events_count (q : String) :
    (execute_query_events q).count DbEvent.closeConn = 1 := by
  simp [execute_query_events, List.count_cons]

lemma execute_query_events_last (q : String) :
    (execute_query_events q).getLast? = some DbEvent.closeConn := rfl

lemma create_events_count (df : Df) (t : String) :
    (create_events df t).count DbEvent.closeConn = 1 := by
  have hm : ((rowsOf df).map
      (fun r => DbEvent.execP (insert_query t r.length) r)).count DbEvent.closeConn = 0 := by
    rw [List.count_eq_zero]
    intro hmem
    rcases List.mem_map.mp hmem with ⟨r, _, hr⟩
    exact absurd hr (by simp)
  simp [create_events, List.count_append, List.count_cons, hm]

lemma create_events_last (df : Df) (t : String) :
    (create_events df t).getLast? = some DbEvent.closeConn := by
  unfold create_events
  rw [List.append_assoc, List.getLast?_append_of_ne_nil _ (by simp),
      List.getLast?_append_of_ne_nil _ (by simp)]
  rfl

/-- `execute_query` returned `None`: the body failed, the diagnostic names
the exception, and the trace is the body's. -/
lemma execute_query_none (q : String) (res : QueryResult) (oracle : Oracle)
    (tr : List DbEvent) (msgs : List String)
    (h : execute_query q res oracle = (none, tr, msgs)) :
    ∃ e, execute_query_body q res oracle [] = (Except.error e, tr)
      ∧ msgs = ["Error ejecutando la consulta: " ++ e] := by
  rcases hrs : execute_query_body q res oracle [] with ⟨r, tr2⟩
  cases r with
  | ok df => rw [execute_query, hrs] at h; simp at h
  | error e =>
    rw [execute_query, hrs] at h
    simp only [Prod.mk.injEq] at h
    exact ⟨e, by rw [h.2.1], by rw [h.2.2]⟩

/-- `create_table_from_df` returned the failure marker: the body failed,
the diagnostic names the exception, and the trace is the body's. -/
lemma create_table_none (df : Df) (t : String) (oracle : Oracle)
    (tr : List DbEvent) (msgs : List String)
    (h : create_table_from_df df t oracle = (none, tr, msgs)) :
    ∃ e, create_table_from_df_body df t oracle [] = (Except.error e, tr)
      ∧ msgs = ["Error al crear la tabla: " ++ e] := by
  rcases hrs : create_table_from_df_body df t oracle [] with ⟨r, tr2⟩
  cases r with
  | ok u => rw [create_table_from_df, hrs] at h; simp at h
  | error e =>
    rw [create_table_from_df, hrs] at h
    simp only [Prod.mk.injEq] at h
    exact ⟨e, by rw [h.2.1], by rw [h.2.2]⟩

/-! Lemmas about reading table names back from the generated SQL. -/

lemma dropLit_self_append (p : List Char) : ∀ r, dropLit p (p ++ r) = some r := by
  induction p with
  | nil => intro r; rfl
  | cons c cs ih => intro r; simp [dropLit, ih]

lemma takeName_append (l : List Char) (r : List Char)
    (h : ∀ c ∈ l, !(c == '"')) : takeName (l ++ '"' :: r) = l := by
  induction l with
  | nil => simp [takeName]
  | cons c cs ih =>
    have hc : ¬ (c = '"') := by simpa using h c (by simp)
    have ih2 := ih (fun x hx => h x (by simp [hx]))
    simp only [List.cons_append, takeName, if_neg hc, List.append_eq]
    rw [ih2]

lemma parseCreate_query (t : String) (df : Df) (h : noQuote t = true) :
    parseCreate (create_table_query t df) = some t := by
  unfold parseCreate create_table_query
  rw [show ("CREATE TABLE IF NOT EXISTS \"" ++ t ++ "\" ("
        ++ String.intercalate ", " (columnDefs df) ++ ");").data
      = "CREATE TABLE IF NOT EXISTS \"".data
        ++ (t.data ++ '"' :: (" (" ++ String.intercalate ", " (columnDefs df) ++ ");").data) by
    simp [String.data_append]]
  rw [dropLit_self_append]
  simp only [Option.map_some']
  rw [takeName_append t.data _ (by simpa [noQuote, List.all_eq_true] using h)]

lemma parseInsertTbl_query (t : String) (n : Nat) (h : noQuote t = true) :
    parseInsertTbl (insert_query t n) = some t := by
  unfold parseInsertTbl insert_query
  rw [show ("INSERT INTO \"" ++ t ++ "\" VALUES (" ++ placeholders n ++ ")").data
      = "INSERT INTO \"".data
        ++ (t.data ++ '"' :: (" VALUES (" ++ placeholders n ++ ")").data) by
    simp [String.data_append]]
  rw [dropLit_self_append]
  simp only [Option.map_some']
  rw [takeName_append t.data _ (by simpa [noQuote, List.all_eq_true] using h)]

/-! Lemmas about the database semantics. -/

lemma dbLookup_append_none (db : DbState) (t : String) (rs : List (List Value))
    (h : dbLookup db t = none) : dbLookup (db ++ [(t, rs)]) t = some rs := by
  induction db with
  | nil => simp [dbLookup]
  | cons p rest ih =>
    rw [dbLookup] at h
    by_cases hp : p.1 = t
    · rw [if_pos hp] at h; exact absurd h (by simp)
    · rw [if_neg hp] at h
      cases p
      simp only [List.cons_append, dbLookup, if_neg hp]
      exact ih h

lemma dbLookup_create (db : DbState) (t : String) :
    dbLookup (dbCreateIfAbsent db t) t = some ((dbLookup db t).getD []) := by
  unfold dbCreateIfAbsent
  cases h : dbLookup db t with
  | some rs => simp [h]
  | none => simp [dbLookup_append_none db t [] h]

lemma dbLookup_insert (db : DbState) (t : String) (r : List Value) :
    dbLookup (dbInsert db t r) t = (dbLookup db t).map (fun rs => rs ++ [r]) := by
  induction db with
  | nil => rfl
  | cons p rest ih =>
    rcases p with ⟨n, rs⟩
    by_cases hp : n = t
    · subst hp
      simp only [dbInsert, eq_self_iff_true, if_true]
      simp [dbLookup]
    · simp only [dbInsert]
      rw [show (if n = t then (n, rs ++ [r]) else (n, rs)) = (n, rs) from if_neg hp]
      simp only [dbLookup, if_neg hp]
      exact ih

lemma runTrace_insert_events (t : String) (h : noQuote t = true) :
    ∀ (rows : List (List Value)) (db : DbState) (x : List (List Value)),
      dbLookup db t = some x →
      dbLookup (List.foldl applyEvent db
        (rows.map (fun r => DbEvent.execP (insert_query t r.length) r))) t
        = some (x ++ rows) := by
  intro rows
  induction rows with
  | nil => intro db x hx; simpa using hx
  | cons r rest ih =>
    intro db x hx
    have hone : applyEvent db (DbEvent.execP (insert_query t r.length) r) = dbInsert db t r := by
      simp [applyEvent, parseInsertTbl_query t r.length h]
    simp only [List.map_cons, List.foldl_cons, hone]
    have hlk : dbLookup (dbInsert db t r) t = some (x ++ [r]) := by
      rw [dbLookup_insert, hx]; rfl
    rw [ih (dbInsert db t r) (x ++ [r]) hlk]
    simp

/-- Running one materializer call against the database appends exactly the
DataFrame rows to whatever the table already held. -/
lemma runTrace_create_events (db : DbState) (df : Df) (t : String) (h : noQuote t = true) :
    dbLookup (runTrace db (create_events df t)) t
      = some ((dbLookup db t).getD [] ++ rowsOf df) := by
  unfold runTrace create_events
  rw [List.foldl_append, List.foldl_append]
  have h4 : List.foldl applyEvent db
      [DbEvent.connect, DbEvent.cursor, DbEvent.exec (create_table_query t df), DbEvent.commit]
      = dbCreateIfAbsent db t := by
    simp [List.foldl_cons, applyEvent, parseCreate_query t df h]
  rw [h4]
  have hmid := runTrace_insert_events t h (rowsOf df) (dbCreateIfAbsent db t)
    ((dbLookup db t).getD []) (dbLookup_create db t)
  have htail : ∀ db2 : DbState,
      List.foldl applyEvent db2 [DbEvent.commit, DbEvent.closeCursor, DbEvent.closeConn] = db2 := by
    intro db2; rfl
  rw [htail, hmid]

/-! Generic list helpers. -/

lemma map_eq_self_of {α : Type} (f : α → α) :
    ∀ (l : List α), (∀ a ∈ l, f a = a) → l.map f = l := by
  intro l
  induction l with
  | nil => intro _; rfl
  | cons a t ih =>
    intro h
    rw [List.map_cons, h a (by simp), ih (fun x hx => h x (by simp [hx]))]

lemma map_congr_fun {α β : Type} (f g : α → β) :
    ∀ (l : List α), (∀ a ∈ l, f a = g a) → l.map f = l.map g := by
  intro l
  induction l with
  | nil => intro _; rfl
  | cons a t ih =>
    intro h
    rw [List.map_cons, List.map_cons, h a (by simp), ih (fun x hx => h x (by simp [hx]))]

lemma getD_map_lt {α β : Type} (f : α → β) (d : α) (d2 : β) :
    ∀ (l : List α) (i : Nat), i < l.length → (l.map f).getD i d2 = f (l.getD i d) := by
  intro l
  induction l with
  | nil => intro i h; simp at h
  | cons a t ih =>
    intro i h
    cases i with
    | zero => simp
    | succ j => simp only [List.map_cons, List.getD_cons_succ]; exact ih j (by simpa using h)

lemma getD_mem_of_lt {α : Type} (d : α) :
    ∀ (l : List α) (i : Nat), i < l.length → l.getD i d ∈ l := by
  intro l
  induction l with
  | nil => intro i h; simp at h
  | cons a t ih =>
    intro i h
    cases i with
    | zero => simp
    | succ j => simp only [List.getD_cons_succ]; exact List.mem_cons_of_mem a (ih j (by simpa using h))

/-! Lemmas about mapExcept. -/

lemma mapExcept_ok_elim {α β : Type} (f : α → Except String β) :
    ∀ (l : List α) (l2 : List β), mapExcept f l = Except.ok l2 →
      l2.length = l.length ∧ ∀ (da : α) (db2 : β) (i : Nat), i < l.length →
        f (l.getD i da) = Except.ok (l2.getD i db2) := by
  intro l
  induction l with
  | nil =>
    intro l2 h
    simp only [mapExcept, Except.ok.injEq] at h
    subst h
    exact ⟨rfl, fun da db2 i hi => by simp at hi⟩
  | cons a rest ih =>
    intro l2 h
    simp only [mapExcept] at h
    cases hf : f a with
    | error e => rw [hf] at h; simp at h
    | ok b =>
      rw [hf] at h
      cases hr : mapExcept f rest with
      | error e => rw [hr] at h; simp at h
      | ok bs =>
        rw [hr] at h
        simp only [Except.ok.injEq] at h
        subst h
        obtain ⟨hlen, hpos⟩ := ih bs hr
        refine ⟨by simp [hlen], ?_⟩
        intro da db2 i hi
        cases i with
        | zero => simpa using hf
        | succ j => simpa using hpos da db2 j (by simpa using hi)

lemma mapExcept_map_proj {α β γ : Type} (f : α → Except String β) (g : α → γ) (g2 : β → γ)
    (hfg : ∀ a b, f a = Except.ok b → g2 b = g a) :
    ∀ (l : List α) (l2 : List β), mapExcept f l = Except.ok l2 → l2.map g2 = l.map g := by
  intro l
  induction l with
  | nil =>
    intro l2 h
    simp only [mapExcept, Except.ok.injEq] at h
    subst h
    rfl
  | cons a rest ih =>
    intro l2 h
    simp only [mapExcept] at h
    cases hf : f a with
    | error e => rw [hf] at h; simp at h
    | ok b =>
      rw [hf] at h
      cases hr : mapExcept f rest with
      | error e => rw [hr] at h; simp at h
      | ok bs =>
        rw [hr] at h
        simp only [Except.ok.injEq] at h
        subst h
        rw [List.map_cons, List.map_cons, hfg a b hf, ih bs hr]

/-! Lemmas about the cleaning passes. -/

lemma copyDf_eq (df : Df) : copyDf df = df := by
  cases df with
  | mk cols =>
    unfold copyDf
    have h : ∀ c : Col, ({ name := c.name, dtype := c.dtype, cells := c.cells } : Col) = c :=
      fun c => by cases c; rfl
    simp [h]

lemma trimCol_name (c c2 : Col) (h : trimCol c = Except.ok c2) :
    c2.name = c.name ∧ c2.dtype = c.dtype := by
  unfold trimCol at h
  by_cases hd : c.dtype = Dtype.object
  · rw [if_pos hd] at h
    cases hs : stripSeries c.cells with
    | ok out => rw [hs] at h; simp only [Except.ok.injEq] at h; subst h; exact ⟨rfl, rfl⟩
    | error e => rw [hs] at h; simp at h
  · rw [if_neg hd] at h
    simp only [Except.ok.injEq] at h
    subst h
    exact ⟨rfl, rfl⟩

lemma trimPass_names (df df2 : Df) (h : trimPass df = Except.ok df2) :
    df2.names = df.names := by
  unfold trimPass at h
  cases hm : mapExcept trimCol df.cols with
  | error e => rw [hm] at h; simp at h
  | ok cs =>
    rw [hm] at h
    simp only [Except.ok.injEq] at h
    subst h
    exact mapExcept_map_proj trimCol (fun c => c.name) (fun c => c.name)
      (fun a b hb => (trimCol_name a b hb).1) df.cols cs hm

lemma renamePass_names (df : Df) : (renamePass df).names = df.names.map normalizeName := by
  simp [renamePass, Df.names, List.map_map, Function.comp]

lemma dateInferCol_name (c : Col) : (dateInferCol c).1.name = c.name := by
  unfold dateInferCol
  by_cases hd : c.dtype = Dtype.object
  · rw [if_pos hd]; cases h : to_datetime c.cells <;> simp
  · rw [if_neg hd]

lemma dateInferPass_names (df : Df) : (dateInferPass df).1.names = df.names := by
  simp only [dateInferPass, Df.names, List.map_map, Function.comp]
  exact map_congr_fun _ _ df.cols (fun c _ => dateInferCol_name c)

lemma rebuildCols_names (kept : List (List Value)) :
    ∀ (cols : List Col) (i : Nat),
      (rebuildCols kept cols i).map (fun c => c.name) = cols.map (fun c => c.name) := by
  intro cols
  induction cols with
  | nil => intro i; rfl
  | cons c rest ih => intro i; simp only [rebuildCols, List.map_cons, ih]

lemma drop_duplicates_names (df : Df) : (drop_duplicates df).names = df.names := by
  simp [drop_duplicates, Df.names, rebuildCols_names]

lemma limpieza_names (df r : Df) (msgs : List String)
    (h : limpieza_general df = Except.ok (r, msgs)) :
    r.names = df.names.map normalizeName := by
  simp only [limpieza_general] at h
  cases ht : trimPass (renamePass (copyDf df)) with
  | error e => rw [ht] at h; simp at h
  | ok trimmed =>
    rw [ht] at h
    simp only [Except.ok.injEq, Prod.mk.injEq] at h
    rw [← h.1, drop_duplicates_names, dateInferPass_names, trimPass_names _ _ ht,
        renamePass_names, copyDf_eq]

/-! Idempotence machinery for column-name normalization. -/

lemma isSpaceChar_not_word (c : Char) (h : isWordChar c = true) : isSpaceChar c = false := by
  by_contra hc
  have hs : isSpaceChar c = true := by revert hc; cases isSpaceChar c <;> simp
  have hmem : c = ' ' ∨ c = '\t' ∨ c = '\n' ∨ c = '\r' ∨ c = '\x0b' ∨ c = '\x0c' := by
    simpa [isSpaceChar, or_assoc] using hs
  rcases hmem with rfl | rfl | rfl | rfl | rfl | rfl <;> exact absurd h (by decide)

lemma lowerChar_eq_self (c : Char) (hc : c ∉ upperList) : lowerChar c = c := by
  have h : ∀ x : Char, x ∈ upperList → ¬ (c = x) := fun x hx he => hc (he ▸ hx)
  unfold lowerChar
  rw [if_neg (h 'A' (by decide)), if_neg (h 'B' (by decide)), if_neg (h 'C' (by decide)),
      if_neg (h 'D' (by decide)), if_neg (h 'E' (by decide)), if_neg (h 'F' (by decide)),
      if_neg (h 'G' (by decide)), if_neg (h 'H' (by decide)), if_neg (h 'I' (by decide)),
      if_neg (h 'J' (by decide)), if_neg (h 'K' (by decide)), if_neg (h 'L' (by decide)),
      if_neg (h 'M' (by decide)), if_neg (h 'N' (by decide)), if_neg (h 'O' (by decide)),
      if_neg (h 'P' (by decide)), if_neg (h 'Q' (by decide)), if_neg (h 'R' (by decide)),
      if_neg (h 'S' (by decide)), if_neg (h 'T' (by decide)), if_neg (h 'U' (by decide)),
      if_neg (h 'V' (by decide)), if_neg (h 'W' (by decide)), if_neg (h 'X' (by decide)),
      if_neg (h 'Y' (by decide)), if_neg (h 'Z' (by decide))]

lemma lowerChar_not_upper (c : Char) : lowerChar c ∉ upperList := by
  by_cases hc : c ∈ upperList
  · simp only [upperList] at hc
    fin_cases hc <;> decide
  · rw [lowerChar_eq_self c hc]; exact hc

/-- Every character of a normalized name is a word character, is not an
ASCII uppercase letter, and is not a space. -/
lemma normalizeName_chars (s : String) :
    ∀ c ∈ (normalizeName s).data, isWordChar c = true ∧ c ∉ upperList ∧ c ≠ ' ' := by
  intro c hc
  have hc2 : c ∈ replNonWord (replSpace ((stripChars s.data).map lowerChar)) := hc
  unfold replNonWord at hc2
  rcases List.mem_map.mp hc2 with ⟨y, hy, hcy⟩
  by_cases hw : isWordChar y = true
  · rw [if_pos hw] at hcy
    subst hcy
    refine ⟨hw, ?_, ?_⟩
    · unfold replSpace at hy
      rcases List.mem_map.mp hy with ⟨z, hz, hyz⟩
      by_cases hsp : z = ' '
      · rw [if_pos hsp] at hyz; subst hyz; decide
      · rw [if_neg hsp] at hyz
        subst hyz
        rcases List.mem_map.mp hz with ⟨x, _, hxz⟩
        rw [← hxz]
        exact lowerChar_not_upper x
    · intro hsp
      subst hsp
      exact absurd hw (by decide)
  · rw [if_neg hw] at hcy
    subst hcy
    exact ⟨by decide, by decide, by decide⟩

lemma dropWhile_eq_self_of (p : Char → Bool) :
    ∀ (l : List Char), (∀ c ∈ l, p c = false) → l.dropWhile p = l := by
  intro l h
  cases l with
  | nil => rfl
  | cons a t => rw [List.dropWhile_cons, h a (by simp)]; simp

lemma stripChars_eq_self (l : List Char) (h : ∀ c ∈ l, isSpaceChar c = false) :
    stripChars l = l := by
  unfold stripChars
  rw [dropWhile_eq_self_of _ l h,
      dropWhile_eq_self_of _ l.reverse (fun c hc => h c (List.mem_reverse.mp hc)),
      List.reverse_reverse]

lemma normalizeName_idem (s : String) :
    normalizeName (normalizeName s) = normalizeName s := by
  have hch := normalizeName_chars s
  conv_lhs => rw [normalizeName]
  rw [stripChars_eq_self _ (fun c hc => isSpaceChar_not_word c (hch c hc).1),
      map_eq_self_of lowerChar _ (fun c hc => lowerChar_eq_self c (hch c hc).2.1)]
  unfold replSpace
  rw [map_eq_self_of _ _ (fun c hc => by rw [if_neg (hch c hc).2.2])]
  unfold replNonWord
  rw [map_eq_self_of _ _ (fun c hc => by rw [if_pos (hch c hc).1])]

lemma getD_concat_length {α : Type} (l : List α) (x d : α) :
    (l ++ [x]).getD l.length d = x := by
  rw [List.getD_eq_getElem?_getD, List.getElem?_concat_length]
  rfl

lemma getD_set_self {α : Type} (l : List α) (i : Nat) (x d : α) (hi : i < l.length) :
    (l.set i x).getD i d = x := by
  rw [List.getD_eq_getElem?_getD, List.getElem?_set, if_pos rfl, if_pos hi]
  rfl

lemma getD_set_ne {α : Type} (l : List α) (i j : Nat) (x d : α) (hij : i ≠ j) :
    (l.set i x).getD j d = l.getD j d := by
  rw [List.getD_eq_getElem?_getD, List.getElem?_set_ne hij, ← List.getD_eq_getElem?_getD]

lemma getD_append_lt {α : Type} (l l2 : List α) (i : Nat) (d : α) (hi : i < l.length) :
    (l ++ l2).getD i d = l.getD i d := List.getD_append l l2 d i hi

lemma count_insert_map_zero (df : Df) (t : String) (x : DbEvent)
    (hx : ∀ s r, x ≠ DbEvent.execP s r) :
    ((rowsOf df).map (fun r => DbEvent.execP (insert_query t r.length) r)).count x = 0 := by
  rw [List.count_eq_zero]
  intro hm
  rcases List.mem_map.mp hm with ⟨r, _, hr⟩
  exact hx _ _ hr.symm

lemma create_events_count_connect (df : Df) (t : String) :
    (create_events df t).count DbEvent.connect = 1 := by
  have hm := count_insert_map_zero df t DbEvent.connect (by intro s r h; cases h)
  simp [create_events, List.count_append, List.count_cons, hm]

/-! Claim theorems. -/

/-- C1 fails as stated: the Tabular Cleaner has no boundary handler, and on
an object-dtype column holding only ints the pandas string accessor raises,
so the exception propagates to the caller instead of being caught. -/
theorem c1_counterexample :
    limpieza_general dfIntObj
      = Except.error "Can only use .str accessor with string values" := rfl

/-- C1 (amended): the four I/O operations — query execution, table
materialization, SQL-file reading, JSON-file reading — catch every failure
at their own boundary, emit a diagnostic, and return an absent result; the
tabular cleaner catches only the per-column date-parse failures, and any
failure of its string-trimming pass propagates to the caller. -/
theorem c1_amended_boundary_catch (q : String) (res : QueryResult) (oracle : Oracle)
    (df : Df) (t : String) (fsql fjson : Except String String) (α : Type)
    (jload : String → Except String α) (dfc : Df) :
    ((∃ d tr, execute_query_body q res oracle [] = (Except.ok d, tr)
        ∧ execute_query q res oracle = (some d, tr, []))
      ∨ (∃ e tr, execute_query_body q res oracle [] = (Except.error e, tr)
        ∧ execute_query q res oracle = (none, tr, ["Error ejecutando la consulta: " ++ e])))
    ∧ ((∃ tr, create_table_from_df_body df t oracle [] = (Except.ok (), tr)
        ∧ create_table_from_df df t oracle
          = (some (), tr, ["Tabla '" ++ t ++ "' creada exitosamente en PostgreSQL."]))
      ∨ (∃ e tr, create_table_from_df_body df t oracle [] = (Except.error e, tr)
        ∧ create_table_from_df df t oracle = (none, tr, ["Error al crear la tabla: " ++ e])))
    ∧ ((∃ s, fsql = Except.ok s ∧ read_sql_file fsql = (some s, []))
      ∨ (∃ e, fsql = Except.error e
          ∧ read_sql_file fsql = (none, ["Error al leer el archivo: " ++ e])))
    ∧ ((∃ s v, fjson = Except.ok s ∧ jload s = Except.ok v
          ∧ read_json_file fjson jload = (some v, []))
      ∨ ((read_json_file fjson jload).1 = none ∧ (read_json_file fjson jload).2 ≠ []))
    ∧ (∀ e, limpieza_general dfc = Except.error e →
        trimPass (renamePass (copyDf dfc)) = Except.error e) := by
  refine ⟨?_, ?_, ?_, ?_, ?_⟩
  · rcases hb : execute_query_body q res oracle [] with ⟨r, tr⟩
    cases r with
    | ok d => exact Or.inl ⟨d, tr, rfl, by unfold execute_query; rw [hb]⟩
    | error e => exact Or.inr ⟨e, tr, rfl, by unfold execute_query; rw [hb]⟩
  · rcases hb : create_table_from_df_body df t oracle [] with ⟨r, tr⟩
    cases r with
    | ok u => exact Or.inl ⟨tr, rfl, by unfold create_table_from_df; rw [hb]⟩
    | error e => exact Or.inr ⟨e, tr, rfl, by unfold create_table_from_df; rw [hb]⟩
  · cases fsql with
    | ok s => exact Or.inl ⟨s, rfl, rfl⟩
    | error e => exact Or.inr ⟨e, rfl, rfl⟩
  · cases fjson with
    | error e => exact Or.inr ⟨rfl, by simp [read_json_file]⟩
    | ok s =>
      cases hj : jload s with
      | ok v => exact Or.inl ⟨s, v, rfl, hj, by simp [read_json_file, hj]⟩
      | error e => exact Or.inr (by simp [read_json_file, hj])
  · intro e he
    simp only [limpieza_general] at he
    cases ht : trimPass (renamePass (copyDf dfc)) with
    | ok trimmed => rw [ht] at he; simp at he
    | error e2 =>
      rw [ht] at he
      simp only [Except.error.injEq] at he
      rw [← he]

/-- C1 witness: the amended clause for the cleaner applied at the
all-int object column, whose string-trimming pass raises. -/
theorem c1_amended_boundary_catch_witness :
    trimPass (renamePass (copyDf dfIntObj))
      = Except.error "Can only use .str accessor with string values" := by
  have h := c1_amended_boundary_catch "SELECT 1" qres0 noFault dfEmpty "t"
    (Except.ok "SELECT 1") (Except.ok "[]") Nat (fun _ => Except.ok 0) dfIntObj
  exact h.2.2.2.2 _ (by rfl)

/-- C2 fails as stated: when the query-execution step raises after the
connection was opened, the connection is not closed before the call
returns — the broad catch has no finally block. -/
theorem c2_counterexample :
    (execute_query "SELECT 1" qres0 failAtExec).1 = none
    ∧ DbEvent.connect ∈ (execute_query "SELECT 1" qres0 failAtExec).2.1
    ∧ DbEvent.closeConn ∉ (execute_query "SELECT 1" qres0 failAtExec).2.1 := by decide

/-- C2 (amended): each call acquires one fresh connection; on the
fault-free path it closes it exactly once, as the last driver call; on any
failure path the error is caught but the connection is never closed before
returning. -/
theorem c2_amended_connection_lifecycle (q : String) (res : QueryResult)
    (df : Df) (t : String) (oracle : Oracle) :
    ((execute_query q res noFault).2.1.count DbEvent.connect = 1
      ∧ (execute_query q res noFault).2.1.count DbEvent.closeConn = 1
      ∧ (execute_query q res noFault).2.1.getLast? = some DbEvent.closeConn)
    ∧ ((create_table_from_df df t noFault).2.1.count DbEvent.connect = 1
      ∧ (create_table_from_df df t noFault).2.1.count DbEvent.closeConn = 1
      ∧ (create_table_from_df df t noFault).2.1.getLast? = some DbEvent.closeConn)
    ∧ (∀ tr msgs, execute_query q res oracle = (none, tr, msgs) → DbEvent.closeConn ∉ tr)
    ∧ (∀ tr msgs, create_table_from_df df t oracle = (none, tr, msgs) → DbEvent.closeConn ∉ tr) := by
  refine ⟨?_, ?_, ?_, ?_⟩
  · rw [execute_query_noFault]
    exact ⟨by simp [execute_query_events, List.count_cons],
      execute_query_events_count q, execute_query_events_last q⟩
  · rw [create_table_noFault]
    exact ⟨create_events_count_connect df t, create_events_count df t, create_events_last df t⟩
  · intro tr msgs h
    obtain ⟨e, hb, _⟩ := execute_query_none q res oracle tr msgs h
    exact catchRun_error_no_close oracle (execute_query_events q) (mkDf res.1 res.2) e tr hb
      (by rw [execute_query_events_count]) (execute_query_events_last q)
  · intro tr msgs h
    obtain ⟨e, hb, _⟩ := create_table_none df t oracle tr msgs h
    exact catchRun_error_no_close oracle (create_events df t) () e tr hb
      (by rw [create_events_count]) (create_events_last df t)

/-- C2 witness: with the fault at the first execute, neither database
operation closes its already-opened connection. -/
theorem c2_amended_connection_lifecycle_witness :
    DbEvent.closeConn ∉ (execute_query "SELECT 1" qres0 failAtExec).2.1
    ∧ DbEvent.closeConn ∉ (create_table_from_df dfTypes "t" failAtExec).2.1 := by
  have h := c2_amended_connection_lifecycle "SELECT 1" qres0 dfTypes "t" failAtExec
  exact ⟨h.2.2.1 [DbEvent.connect, DbEvent.cursor]
      ["Error ejecutando la consulta: psycopg2.OperationalError"] (by decide),
    h.2.2.2 [DbEvent.connect, DbEvent.cursor]
      ["Error al crear la tabla: psycopg2.OperationalError"] (by decide)⟩

/-- C3: the Table Materializer classifies every column by its runtime type
name — INTEGER when the name contains "int", otherwise FLOAT when it
contains "float", otherwise TEXT — and the schema entry wraps the column
name in double quotes. -/
theorem c3_schema_classification (df : Df) (i : Nat) (hi : i < df.cols.length) :
    (columnDefs df).getD i ""
      = "\"" ++ (df.cols.getD i colDefault).name ++ "\" "
        ++ column_type_of (df.cols.getD i colDefault).dtype
    ∧ (column_type_of (df.cols.getD i colDefault).dtype = "INTEGER"
        ↔ containsSub "int".data (Dtype.pyName (df.cols.getD i colDefault).dtype).data = true)
    ∧ (column_type_of (df.cols.getD i colDefault).dtype = "FLOAT"
        ↔ (containsSub "int".data (Dtype.pyName (df.cols.getD i colDefault).dtype).data = false
            ∧ containsSub "float".data (Dtype.pyName (df.cols.getD i colDefault).dtype).data = true))
    ∧ (column_type_of (df.cols.getD i colDefault).dtype = "TEXT"
        ↔ (containsSub "int".data (Dtype.pyName (df.cols.getD i colDefault).dtype).data = false
            ∧ containsSub "float".data (Dtype.pyName (df.cols.getD i colDefault).dtype).data = false)) := by
  have hcls : ∀ d : Dtype,
      (column_type_of d = "INTEGER" ↔ containsSub "int".data (Dtype.pyName d).data = true)
      ∧ (column_type_of d = "FLOAT"
          ↔ (containsSub "int".data (Dtype.pyName d).data = false
              ∧ containsSub "float".data (Dtype.pyName d).data = true))
      ∧ (column_type_of d = "TEXT"
          ↔ (containsSub "int".data (Dtype.pyName d).data = false
              ∧ containsSub "float".data (Dtype.pyName d).data = false)) := by
    intro d
    cases d <;> exact (by decide)
  exact ⟨getD_map_lt _ colDefault "" df.cols i hi,
    (hcls _).1, (hcls _).2.1, (hcls _).2.2⟩

/-- C3 witness: the classification at the int64 column of a DataFrame with
every dtype. -/
theorem c3_schema_classification_witness :
    (columnDefs dfTypes).getD 0 ""
      = "\"" ++ (dfTypes.cols.getD 0 colDefault).name ++ "\" "
        ++ column_type_of (dfTypes.cols.getD 0 colDefault).dtype
    ∧ (column_type_of (dfTypes.cols.getD 0 colDefault).dtype = "INTEGER"
        ↔ containsSub "int".data (Dtype.pyName (dfTypes.cols.getD 0 colDefault).dtype).data = true) := by
  have h := c3_schema_classification dfTypes 0 (by decide)
  exact ⟨h.1, h.2.1⟩

/-- C4: on a fault-free run the Table Materializer issues exactly one
conditional CREATE built from the derived schema, a commit, one
parameter-bound INSERT per row (the SQL text holds only placeholders, the
row travels as parameters), and one final commit. -/
theorem c4_sql_sequence (df : Df) (t : String) :
    sqlEvents ((create_table_from_df df t noFault).2.1)
      = DbEvent.exec (create_table_query t df) :: DbEvent.commit ::
        ((rowsOf df).map (fun r => DbEvent.execP (insert_query t r.length) r) ++ [DbEvent.commit])
    ∧ create_table_query t df
      = "CREATE TABLE IF NOT EXISTS \"" ++ t ++ "\" ("
        ++ String.intercalate ", " (columnDefs df) ++ ");"
    ∧ ∀ n, insert_query t n
      = "INSERT INTO \"" ++ t ++ "\" VALUES ("
        ++ String.intercalate ", " (List.replicate n "%s") ++ ")" := by
  refine ⟨?_, rfl, fun n => rfl⟩
  rw [create_table_noFault]
  unfold sqlEvents create_events
  rw [List.filter_append, List.filter_append]
  have hmap : ((rowsOf df).map (fun r => DbEvent.execP (insert_query t r.length) r)).filter isSqlEvent
      = (rowsOf df).map (fun r => DbEvent.execP (insert_query t r.length) r) := by
    rw [List.filter_eq_self]
    intro e he
    rcases List.mem_map.mp he with ⟨r, _, hr⟩
    rw [← hr]
    rfl
  rw [hmap]
  rfl

/-- C7: column-name normalization is idempotent, and on the example input
it produces exactly the expected name. -/
theorem c7_normalization_idempotent :
    (∀ s, normalizeName (normalizeName s) = normalizeName s)
    ∧ normalizeName " First Name! " = "first_name_" :=
  ⟨normalizeName_idem, by decide⟩

/-- C8 fails as stated: normalization maps the two distinct column names
"a b" and "a_b" to the same output name, so a DataFrame with unique names
leaves the renaming step with a duplicate. -/
theorem c8_counterexample :
    normalizeName "a b" = normalizeName "a_b"
    ∧ "a b" ≠ "a_b"
    ∧ dfC8.names.Nodup
    ∧ (renamePass dfC8).names = ["a_b", "a_b"]
    ∧ ¬ (renamePass dfC8).names.Nodup := by decide

/-- C8 (amended): the cleaner preserves column-name uniqueness exactly on
the inputs whose names normalize to pairwise-distinct names; then the
returned DataFrame is a valid Tabular Structure. -/
theorem c8_amended_unique_names (df r : Df) (msgs : List String)
    (hnodup : (df.names.map normalizeName).Nodup)
    (hok : limpieza_general df = Except.ok (r, msgs)) : r.names.Nodup := by
  rw [limpieza_names df r msgs hok]
  exact hnodup

/-- C8 witness: a DataFrame whose normalized names stay distinct cleans to
a DataFrame with distinct names. -/
theorem c8_amended_unique_names_witness :
    ({ cols := [⟨"a", Dtype.int64, [Value.vInt 1]⟩, ⟨"b", Dtype.int64, [Value.vInt 2]⟩] } : Df).names.Nodup :=
  c8_amended_unique_names dfW8 _
    ["\n📊 Tipos de datos:", "a    int64", "b    int64",
     "\n🔍 Valores nulos por columna:", "a    0", "b    0",
     "\n✅ Limpieza general completada."]
    (by decide) (by rfl)

/-- C5: two materializer calls with the same table name append — the run
of both call traces leaves the table holding its previous rows plus both
row sets in order, and the only data-definition statement either call
issues is the conditional CREATE (no drop, no truncate). -/
theorem c5_append_semantics (df1 df2 : Df) (t : String) (db : DbState) (h : noQuote t = true) :
    dbLookup (runTrace (runTrace db ((create_table_from_df df1 t noFault).2.1))
        ((create_table_from_df df2 t noFault).2.1)) t
      = some ((dbLookup db t).getD [] ++ rowsOf df1 ++ rowsOf df2)
    ∧ (∀ s, DbEvent.exec s ∈ (create_table_from_df df1 t noFault).2.1 →
        s = create_table_query t df1) := by
  constructor
  · rw [create_table_noFault, create_table_noFault]
    have h1 := runTrace_create_events db df1 t h
    have h2 := runTrace_create_events (runTrace db (create_events df1 t)) df2 t h
    rw [h1] at h2
    simpa [List.append_assoc] using h2
  · intro s hs
    rw [create_table_noFault] at hs
    simp [create_events, List.mem_map] at hs
    exact hs

/-- C5 witness: two one-row calls on an empty database leave both rows in
the table. -/
theorem c5_append_semantics_witness :
    dbLookup (runTrace (runTrace [] ((create_table_from_df df1w "tabla" noFault).2.1))
        ((create_table_from_df df2w "tabla" noFault).2.1)) "tabla"
      = some [[Value.vInt 1], [Value.vInt 2]] := by
  have h := (c5_append_semantics df1w df2w "tabla" [] (by decide)).1
  rw [h]
  rfl

/-- C6: in the date-inference pass, an object-dtype column whose cells all
convert is replaced by the parsed dates with a diagnostic naming it, and a
column with any unconvertible cell is left unchanged with no diagnostic. -/
theorem c6_date_inference (df : Df) (i : Nat) (hi : i < df.cols.length)
    (hobj : (df.cols.getD i colDefault).dtype = Dtype.object) :
    (dateInferPass df).2 = (df.cols.map (fun c => (dateInferCol c).2)).flatten
    ∧ (∀ parsed, to_datetime (df.cols.getD i colDefault).cells = Except.ok parsed →
        (dateInferPass df).1.cols.getD i colDefault
          = { name := (df.cols.getD i colDefault).name, dtype := Dtype.datetime64, cells := parsed }
        ∧ (dateInferCol (df.cols.getD i colDefault)).2
          = [dateMsg (df.cols.getD i colDefault).name]
        ∧ dateMsg (df.cols.getD i colDefault).name ∈ (dateInferPass df).2)
    ∧ (∀ e, to_datetime (df.cols.getD i colDefault).cells = Except.error e →
        (dateInferPass df).1.cols.getD i colDefault = df.cols.getD i colDefault
        ∧ (dateInferCol (df.cols.getD i colDefault)).2 = []) := by
  have hcol : (dateInferPass df).1.cols.getD i colDefault
      = (dateInferCol (df.cols.getD i colDefault)).1 := by
    simp only [dateInferPass]
    exact getD_map_lt _ colDefault colDefault df.cols i hi
  refine ⟨rfl, ?_, ?_⟩
  · intro parsed hp
    have hcell : dateInferCol (df.cols.getD i colDefault)
        = ({ name := (df.cols.getD i colDefault).name, dtype := Dtype.datetime64,
             cells := parsed },
           [dateMsg (df.cols.getD i colDefault).name]) := by
      unfold dateInferCol
      rw [if_pos hobj, hp]
    refine ⟨by rw [hcol, hcell], by rw [hcell], ?_⟩
    have hmem : (dateInferCol (df.cols.getD i colDefault)).2
        ∈ df.cols.map (fun c => (dateInferCol c).2) :=
      List.mem_map.mpr ⟨df.cols.getD i colDefault, getD_mem_of_lt colDefault df.cols i hi, rfl⟩
    have hin : dateMsg (df.cols.getD i colDefault).name
        ∈ (dateInferCol (df.cols.getD i colDefault)).2 := by
      rw [hcell]; simp
    exact List.mem_flatten.mpr ⟨_, hmem, hin⟩
  · intro e hp
    have hcell : dateInferCol (df.cols.getD i colDefault) = (df.cols.getD i colDefault, []) := by
      unfold dateInferCol
      rw [if_pos hobj, hp]
    exact ⟨by rw [hcol, hcell], by rw [hcell]⟩

/-- C6 witness: the all-date column converts with its diagnostic; the
column holding "not-a-date" stays unchanged and contributes no
diagnostic. -/
theorem c6_date_inference_witness :
    (dateInferPass dfDates).1.cols.getD 0 colDefault
      = { name := "fecha", dtype := Dtype.datetime64,
          cells := [Value.vDate 20240101, Value.vDate 20240201] }
    ∧ dateMsg "fecha" ∈ (dateInferPass dfDates).2
    ∧ (dateInferPass dfDates).1.cols.getD 1 colDefault = dfDates.cols.getD 1 colDefault
    ∧ (dateInferCol (dfDates.cols.getD 1 colDefault)).2 = [] := by
  have h0 := (c6_date_inference dfDates 0 (by decide) (by rfl)).2.1
    [Value.vDate 20240101, Value.vDate 20240201] (by rfl)
  have h1 := (c6_date_inference dfDates 1 (by decide) (by rfl)).2.2
    "Unknown datetime string format: not-a-date" (by rfl)
  exact ⟨h0.1, h0.2.2, h1.1, h1.2⟩

/-- C10: the trimming pass maps every object-dtype column element-wise
through string stripping, and any non-string cell in such a column becomes
a missing value, which the null report then counts. -/
theorem c10_trim_nonstrings (df df2 : Df) (i : Nat)
    (hok : trimPass df = Except.ok df2) (hi : i < df.cols.length)
    (hobj : (df.cols.getD i colDefault).dtype = Dtype.object) :
    (df2.cols.getD i colDefault).cells = (df.cols.getD i colDefault).cells.map stripCell
    ∧ ∀ v ∈ (df.cols.getD i colDefault).cells, Value.isStrB v = false →
        stripCell v = Value.vNull ∧ Value.isnullB (stripCell v) = true := by
  constructor
  · unfold trimPass at hok
    cases hm : mapExcept trimCol df.cols with
    | error e => rw [hm] at hok; simp at hok
    | ok cs =>
      rw [hm] at hok
      simp only [Except.ok.injEq] at hok
      obtain ⟨_, hpos⟩ := mapExcept_ok_elim trimCol df.cols cs hm
      have hi2 := hpos colDefault colDefault i hi
      rw [trimCol, if_pos hobj] at hi2
      cases hs : stripSeries (df.cols.getD i colDefault).cells with
      | error e => rw [hs] at hi2; simp at hi2
      | ok out =>
        rw [hs] at hi2
        simp only [Except.ok.injEq] at hi2
        have hout : out = (df.cols.getD i colDefault).cells.map stripCell := by
          unfold stripSeries at hs
          by_cases hok2 : strOk (df.cols.getD i colDefault).cells = true
          · rw [if_pos hok2] at hs
            simpa using hs.symm
          · rw [if_neg hok2] at hs
            simp at hs
        rw [← hok, ← hi2]
        exact hout
  · intro v hv hnv
    cases v with
    | vStr s => simp [Value.isStrB] at hnv
    | vNull => exact ⟨rfl, rfl⟩
    | vInt n => exact ⟨rfl, rfl⟩
    | vFloat n => exact ⟨rfl, rfl⟩
    | vDate d => exact ⟨rfl, rfl⟩

/-- C10 witness: in the mixed text column the int cell becomes missing
while the string cell is trimmed. -/
theorem c10_trim_nonstrings_witness :
    (dfMixTrimmed.cols.getD 0 colDefault).cells
      = (dfMix.cols.getD 0 colDefault).cells.map stripCell
    ∧ stripCell (Value.vInt 7) = Value.vNull := by
  have h := c10_trim_nonstrings dfMix dfMixTrimmed 0 (by rfl) (by decide) (by rfl)
  exact ⟨h.1, (h.2 (Value.vInt 7) (by decide) (by decide)).1⟩

/-- C9: the cleaner never mutates the object the caller passed: the heap
cell at the caller's address is unchanged by the call, because line 148
rebinds the local name to a deep copy and every later in-place update
targets that copy; the value returned on success is exactly the pure
cleaning of the caller's DataFrame. -/
theorem c9_no_input_mutation (h : List Df) (a : Nat) (ha : a < h.length) :
    (limpieza_general_heap h a).1.getD a dfEmpty = h.getD a dfEmpty
    ∧ (∀ w msgs, (limpieza_general_heap h a).2 = Except.ok (w, msgs) →
        limpieza_general (h.getD a dfEmpty)
          = Except.ok ((limpieza_general_heap h a).1.getD w dfEmpty, msgs)) := by
  have hne : h.length ≠ a := by omega
  simp only [limpieza_general_heap]
  rw [getD_concat_length h (copyDf (h.getD a dfEmpty)) dfEmpty]
  rw [getD_set_self (h ++ [copyDf (h.getD a dfEmpty)]) h.length
      (renamePass (copyDf (h.getD a dfEmpty))) dfEmpty (by simp)]
  cases ht : trimPass (renamePass (copyDf (h.getD a dfEmpty))) with
  | error e =>
    dsimp only
    refine ⟨?_, ?_⟩
    · rw [getD_set_ne _ _ _ _ _ hne, getD_append_lt _ _ _ _ ha]
    · intro w msgs hC
      simp at hC
  | ok trimmed =>
    dsimp only
    rw [getD_set_self ((h ++ [copyDf (h.getD a dfEmpty)]).set h.length
        (renamePass (copyDf (h.getD a dfEmpty)))) h.length trimmed dfEmpty (by simp)]
    rw [getD_set_self (((h ++ [copyDf (h.getD a dfEmpty)]).set h.length
        (renamePass (copyDf (h.getD a dfEmpty)))).set h.length trimmed) h.length
        ((dateInferPass trimmed).1) dfEmpty (by simp)]
    rw [getD_concat_length]
    refine ⟨?_, ?_⟩
    · rw [getD_append_lt _ _ _ _ (by simp; omega), getD_set_ne _ _ _ _ _ hne,
        getD_set_ne _ _ _ _ _ hne, getD_set_ne _ _ _ _ _ hne, getD_append_lt _ _ _ _ ha]
    · intro w msgs hC
      simp only [Except.ok.injEq, Prod.mk.injEq] at hC
      rw [← hC.1, ← hC.2]
      rw [getD_concat_length]
      simp only [limpieza_general]
      rw [ht]

/-- C9 witness: cleaning the mixed DataFrame leaves the caller's heap cell
exactly as it was. -/
theorem c9_no_input_mutation_witness :
    (limpieza_general_heap [dfMix] 0).1.getD 0 dfEmpty = dfMix := by
  have h := (c9_no_input_mutation [dfMix] 0 (by decide)).1
  rw [h]
  rfl

end Utils
